import Mathlib

/-!
Verification of the SpaceNet wrapper API.

Shallow embedding of `src/app/demands_analysis.py` (pydantic v1 `CamelModel`
domain model) and `src/app/main.py` (FastAPI orchestration around the external
SpaceNet engine), with theorems settling the frozen claims about the spec.

Modelling conventions:
* Python `float` values are embedded as `PyFloat`: a rational for finite values
  plus the three non-finite values `nan`, `inf`, `negInf`.  `json.loads` maps
  the non-standard tokens `NaN` / `Infinity` / `-Infinity` to those values, so
  engine output text containing them becomes `Json.num .nan` etc.
* JSON documents are embedded as the `Json` tree (the wrapper only ever sees
  the output of `json.loads`, so text-level concerns are out of scope).
* pydantic validation failures are lists of `PError` (location path + message),
  matching the pydantic v1 behaviour of collecting every field error.
-/

namespace SpacenetWrapper

/-- Embedding of a Python `float`: a finite rational or one of the three
non-finite values.  The wrapper performs no float arithmetic, it only parses,
carries and compares these values, so this representation is exact. -/
inductive PyFloat where
  | finite (q : ℚ)
  | nan
  | inf
  | negInf
  deriving DecidableEq

/-- Python `==` on floats: `nan` is not equal to anything, including itself;
the infinities are equal to themselves; finite values compare as rationals. -/
def PyFloat.pyEq : PyFloat → PyFloat → Bool
  | .finite a, .finite b => a == b
  | .inf, .inf => true
  | .negInf, .negInf => true
  | _, _ => false

/-- Python `<=` on floats: any comparison involving `nan` is `False`. -/
def PyFloat.pyLe : PyFloat → PyFloat → Bool
  | .nan, _ => false
  | _, .nan => false
  | .negInf, _ => true
  | .finite _, .negInf => false
  | .inf, .inf => true
  | .inf, _ => false
  | .finite _, .inf => true
  | .finite a, .finite b => a ≤ b

/-- Python `math.isnan`. -/
def PyFloat.isNaN : PyFloat → Bool
  | .nan => true
  | _ => false

/-- Result of Python `json.loads`: `null`, booleans, numbers (including the
non-finite values accepted by the Python JSON decoder), strings, arrays and
objects (assoc list in textual order; duplicate keys resolved last-wins as in
a Python `dict`). -/
inductive Json where
  | null
  | bool (b : Bool)
  | num (f : PyFloat)
  | str (s : String)
  | arr (elems : List Json)
  | obj (fields : List (String × Json))

/-- JSON number holding a Python `int`. -/
def Json.int (n : ℤ) : Json := .num (.finite n)

/-- One segment of a pydantic error location tuple: a field name (pydantic
reports the alias), a list index, or the special whole-model root marker. -/
inductive Seg where
  | key (s : String)
  | idx (n : ℕ)
  | root
  deriving DecidableEq

/-- One entry of a pydantic v1 `ValidationError.errors()` list: the location
path of the offending value and a message. -/
structure PError where
  loc : List Seg
  msg : String
  deriving DecidableEq

/-- A pydantic validation failure is a non-empty list of field errors. -/
abbrev ValidationError := List PError

/-! ## Domain model (`src/app/demands_analysis.py`)

Each pydantic `CamelModel` class becomes a structure with the same fields in
the same order.  `int` fields become `ℤ`, `str` fields `String`, `float`
fields `PyFloat`, `Optional[X]` fields `Option X`, `List[X]` fields `List X`.
-/

/-- Model `ResourceTypeType` (lines 7-14): type of resource type. -/
inductive ResourceTypeType where
  | generic
  | continuous
  | discrete
  deriving DecidableEq

/-- The declared string value of each `ResourceTypeType` member. -/
def ResourceTypeType.value : ResourceTypeType → String
  | .generic => "Generic"
  | .continuous => "Continuous"
  | .discrete => "Discrete"

/-- Model `Environment` (lines 17-23): stowage environment. -/
inductive Environment where
  | pressurized
  | unpressurized
  deriving DecidableEq

/-- The declared string value of each `Environment` member. -/
def Environment.value : Environment → String
  | .pressurized => "Pressurized"
  | .unpressurized => "Unpressurized"

/-- Model `ResourceType` (lines 26-45): type of resource. -/
structure ResourceType where
  type : ResourceTypeType
  name : String
  class_of_supply : ℤ
  environment : Environment
  units : String
  unit_mass : PyFloat
  unit_volume : PyFloat
  packing_factor : PyFloat
  deriving DecidableEq

/-- Model `Location` (lines 48-54): spatial location in a scenario. -/
structure Location where
  id : ℤ
  name : String
  deriving DecidableEq

/-- Model `Element` (lines 57-63): persistent element taking part in a scenario. -/
structure Element where
  id : ℤ
  name : String
  deriving DecidableEq

/-- Model `Resource` (lines 66-74): a defined quantity of a resource type. -/
structure Resource where
  resource : ResourceType
  amount : PyFloat
  mass : PyFloat
  volume : PyFloat
  deriving DecidableEq

/-- Model `RawDemand` (lines 77-102): set of demands aggregated to a moment in
time.  `element` is declared `Optional[Element] = Field(None, ...)`,
`consumption` and `production` default to the empty list. -/
structure RawDemand where
  time : PyFloat
  location : Location
  element : Option Element
  consumption : List Resource
  production : List Resource
  total_mass : PyFloat
  total_volume : PyFloat
  deriving DecidableEq

/-- Model `RawDemandsAnalysis` (lines 105-112): `demands` defaults to `[]`. -/
structure RawDemandsAnalysis where
  demands : List RawDemand
  deriving DecidableEq

/-- Model `NodeDemand` (lines 115-139): demands aggregated to a supply node. -/
structure NodeDemand where
  time : PyFloat
  location : Location
  consumption : List Resource
  production : List Resource
  total_mass : PyFloat
  total_volume : PyFloat
  deriving DecidableEq

/-- Model `EdgeDemand` (lines 142-187): demands aggregated to a supply edge. -/
structure EdgeDemand where
  start_time : PyFloat
  end_time : PyFloat
  origin : Location
  destination : Location
  location : Location
  consumption : List Resource
  production : List Resource
  total_mass : PyFloat
  total_volume : PyFloat
  max_cargo_mass : PyFloat
  net_cargo_mass : PyFloat
  max_cargo_volume : PyFloat
  net_cargo_volume : PyFloat
  deriving DecidableEq

/-- Model `AggregatedDemandsAnalysis` (lines 189-199): `nodes` and `edges` default
to `[]`. -/
structure AggregatedDemandsAnalysis where
  nodes : List NodeDemand
  edges : List EdgeDemand
  deriving DecidableEq

/-! ## Result parser

Models `Model.parse_raw(text)` from pydantic v1 as used at
`src/app/main.py` lines 89 and 140: `json.loads` (whose output is our `Json`
tree) followed by `parse_obj`, i.e. recursive field validation.  `CamelModel`
(fastapi_camelcase) sets a camelCase alias generator and
`allow_population_by_field_name = True`, so every field is looked up first by
its camelCase alias and then by its snake_case name.  Errors are collected
across all fields, as pydantic v1 does, and reported with pydantic
location tuples (using the alias, the pydantic v1 default). -/

/-- One element of the Python `dict(iterable)` coercion: a two-element array
`[key, value]` with a string key becomes a key/value pair.  (Python would
also accept other iterable pair forms, e.g. two-character strings or
non-string keys; those are not produced by the engine and no theorem below
exercises them.) -/
def pyPair : Json → Option (String × Json)
  | .arr [.str k, v] => some (k, v)
  | _ => none

/-- Models pydantic v1 `BaseModel.validate`: a JSON object is used directly
as the field dict; a non-dict value is passed to `dict(...)`, which succeeds
on an array of key/value pairs and — a genuine Python leniency — on the
empty string, since `dict("")` iterates no elements and yields the empty
dict.  Every non-empty string fails (each of its elements is a single
character, not a key/value pair, raising `ValueError`), and `null`,
booleans and numbers raise `TypeError`; both are validation failures. -/
def pydictCoerce : Json → Option (List (String × Json))
  | .obj o => some o
  | .arr l => l.mapM pyPair
  | .str s => if s = "" then some [] else none
  | _ => none

/-- Lookup in the Python dict built from an assoc list: later duplicate keys
overwrite earlier ones, so the last binding wins. -/
def dictGet (o : List (String × Json)) (k : String) : Option Json :=
  (o.reverse.find? (fun kv => kv.1 == k)).map (fun kv => kv.2)

/-- pydantic field value lookup: the camelCase alias first, then (because
`allow_population_by_field_name = True`) the snake_case field name. -/
def getField (o : List (String × Json)) (a n : String) : Option Json :=
  match dictGet o a with
  | some j => some j
  | none => dictGet o n

/-- Applicative combination that accumulates validation errors from both
sides, matching the pydantic v1 collection of every field error. -/
def pseq {α β : Type} (f : Except ValidationError (α → β))
    (x : Except ValidationError α) : Except ValidationError β :=
  match f, x with
  | .ok g, .ok a => .ok (g a)
  | .error e, .ok _ => .error e
  | .ok _, .error e => .error e
  | .error e1, .error e2 => .error (e1 ++ e2)

/-- A required (`Field(...)`) field: absence is the pydantic error
`field required` at the location of the field. -/
def reqField {α : Type} (path : List Seg) (o : List (String × Json))
    (a n : String) (f : List Seg → Json → Except ValidationError α) :
    Except ValidationError α :=
  match getField o a n with
  | none => .error [⟨path ++ [.key a], "field required"⟩]
  | some j => f (path ++ [.key a]) j

/-- A field with a declared default: absence yields the default (pydantic
does not validate defaults under the default configuration). -/
def optField {α : Type} (path : List Seg) (o : List (String × Json))
    (a n : String) (dflt : α) (f : List Seg → Json → Except ValidationError α) :
    Except ValidationError α :=
  match getField o a n with
  | none => .ok dflt
  | some j => f (path ++ [.key a]) j

/-- pydantic v1 `float` field validation: any number is accepted as is —
including `nan` and the infinities, pydantic v1 imposes no finiteness check —
and booleans convert (`float(True) = 1.0`).  pydantic would additionally
coerce numeric strings; the engine emits real numbers and no theorem below
exercises that coercion, so it is not modelled. -/
def parseFloat (path : List Seg) : Json → Except ValidationError PyFloat
  | .num f => .ok f
  | .bool b => .ok (.finite (if b then 1 else 0))
  | _ => .error [⟨path, "value is not a valid float"⟩]

/-- pydantic v1 `int` field validation: ints pass through, finite floats
truncate toward zero via `int()`, booleans convert, non-finite floats raise.
(Numeric-string coercion is likewise not modelled.) -/
def parseInt (path : List Seg) : Json → Except ValidationError ℤ
  | .num (.finite q) => .ok (q.num.tdiv (q.den : ℤ))
  | .num _ => .error [⟨path, "value is not a valid integer"⟩]
  | .bool b => .ok (if b then 1 else 0)
  | _ => .error [⟨path, "value is not a valid integer"⟩]

/-- pydantic v1 `str` field validation.  (Number-to-string coercion is not
modelled; no theorem exercises it.) -/
def parseStr (path : List Seg) : Json → Except ValidationError String
  | .str s => .ok s
  | _ => .error [⟨path, "str type expected"⟩]

/-- Enum field validation for `ResourceTypeType`: the declared values are
exactly `Generic`, `Continuous` and `Discrete`; anything else is the pydantic
`value is not a valid enumeration member` error at the location of the field. -/
def parseResourceTypeType (path : List Seg) (j : Json) :
    Except ValidationError ResourceTypeType :=
  match j with
  | .str s =>
      if s = "Generic" then .ok .generic
      else if s = "Continuous" then .ok .continuous
      else if s = "Discrete" then .ok .discrete
      else .error [⟨path, "value is not a valid enumeration member"⟩]
  | _ => .error [⟨path, "value is not a valid enumeration member"⟩]

/-- Enum field validation for `Environment`. -/
def parseEnvironment (path : List Seg) (j : Json) :
    Except ValidationError Environment :=
  match j with
  | .str s =>
      if s = "Pressurized" then .ok .pressurized
      else if s = "Unpressurized" then .ok .unpressurized
      else .error [⟨path, "value is not a valid enumeration member"⟩]
  | _ => .error [⟨path, "value is not a valid enumeration member"⟩]

/-- Validate every element of a `List[...]` field, numbering locations from
`i` and collecting errors across all elements as pydantic v1 does. -/
def parseListAux {α : Type} (f : List Seg → Json → Except ValidationError α)
    (path : List Seg) (i : ℕ) : List Json → Except ValidationError (List α)
  | [] => .ok []
  | j :: js =>
      pseq (pseq (.ok List.cons) (f (path ++ [.idx i]) j))
        (parseListAux f path (i + 1) js)

/-- A `List[...]` field value must be a JSON array. -/
def parseList {α : Type} (f : List Seg → Json → Except ValidationError α)
    (path : List Seg) : Json → Except ValidationError (List α)
  | .arr l => parseListAux f path 0 l
  | _ => .error [⟨path, "value is not a valid list"⟩]

/-- Nested-model field validation for `Location`: requires a dict (or
dict-coercible value) and validates `id` and `name`. -/
def parseLocation (path : List Seg) (j : Json) : Except ValidationError Location :=
  match pydictCoerce j with
  | none => .error [⟨path, "value is not a valid dict"⟩]
  | some o =>
      pseq (pseq (.ok Location.mk)
        (reqField path o "id" "id" parseInt))
        (reqField path o "name" "name" parseStr)

/-- Nested-model field validation for `Element`. -/
def parseElement (path : List Seg) (j : Json) : Except ValidationError Element :=
  match pydictCoerce j with
  | none => .error [⟨path, "value is not a valid dict"⟩]
  | some o =>
      pseq (pseq (.ok Element.mk)
        (reqField path o "id" "id" parseInt))
        (reqField path o "name" "name" parseStr)

/-- Validation for the `Optional[Element]` field: `None` (JSON `null`) is
allowed and yields no element. -/
def parseOptElement (path : List Seg) (j : Json) :
    Except ValidationError (Option Element) :=
  match j with
  | .null => .ok none
  | _ => (parseElement path j).map some

/-- Nested-model field validation for `ResourceType`
(`src/app/demands_analysis.py` lines 26-45): all eight fields are required;
`type` and `environment` are enum-validated; the numeric bounds the spec
describes do not appear in the source (the `Field(...)` declarations carry
only descriptions), so none are checked here. -/
def parseResourceType (path : List Seg) (j : Json) :
    Except ValidationError ResourceType :=
  match pydictCoerce j with
  | none => .error [⟨path, "value is not a valid dict"⟩]
  | some o =>
      pseq (pseq (pseq (pseq (pseq (pseq (pseq (pseq (.ok ResourceType.mk)
        (reqField path o "type" "type" parseResourceTypeType))
        (reqField path o "name" "name" parseStr))
        (reqField path o "classOfSupply" "class_of_supply" parseInt))
        (reqField path o "environment" "environment" parseEnvironment))
        (reqField path o "units" "units" parseStr))
        (reqField path o "unitMass" "unit_mass" parseFloat))
        (reqField path o "unitVolume" "unit_volume" parseFloat))
        (reqField path o "packingFactor" "packing_factor" parseFloat)

/-- Nested-model field validation for `Resource` (lines 66-74): all four
fields required, no numeric bounds in the source. -/
def parseResource (path : List Seg) (j : Json) : Except ValidationError Resource :=
  match pydictCoerce j with
  | none => .error [⟨path, "value is not a valid dict"⟩]
  | some o =>
      pseq (pseq (pseq (pseq (.ok Resource.mk)
        (reqField path o "resource" "resource" parseResourceType))
        (reqField path o "amount" "amount" parseFloat))
        (reqField path o "mass" "mass" parseFloat))
        (reqField path o "volume" "volume" parseFloat)

/-- Nested-model field validation for `RawDemand` (lines 77-102): `time`,
`location` and the totals are required; `element` defaults to `None`;
`consumption` and `production` default to `[]`. -/
def parseRawDemand (path : List Seg) (j : Json) : Except ValidationError RawDemand :=
  match pydictCoerce j with
  | none => .error [⟨path, "value is not a valid dict"⟩]
  | some o =>
      pseq (pseq (pseq (pseq (pseq (pseq (pseq (.ok RawDemand.mk)
        (reqField path o "time" "time" parseFloat))
        (reqField path o "location" "location" parseLocation))
        (optField path o "element" "element" none parseOptElement))
        (optField path o "consumption" "consumption" [] (parseList parseResource)))
        (optField path o "production" "production" [] (parseList parseResource)))
        (reqField path o "totalMass" "total_mass" parseFloat))
        (reqField path o "totalVolume" "total_volume" parseFloat)

/-- Nested-model field validation for `NodeDemand` (lines 115-139). -/
def parseNodeDemand (path : List Seg) (j : Json) : Except ValidationError NodeDemand :=
  match pydictCoerce j with
  | none => .error [⟨path, "value is not a valid dict"⟩]
  | some o =>
      pseq (pseq (pseq (pseq (pseq (pseq (.ok NodeDemand.mk)
        (reqField path o "time" "time" parseFloat))
        (reqField path o "location" "location" parseLocation))
        (optField path o "consumption" "consumption" [] (parseList parseResource)))
        (optField path o "production" "production" [] (parseList parseResource)))
        (reqField path o "totalMass" "total_mass" parseFloat))
        (reqField path o "totalVolume" "total_volume" parseFloat)

/-- Nested-model field validation for `EdgeDemand` (lines 142-187): all
fields other than the two lists are required; the source declares no
ordering constraint between `start_time` and `end_time` and no relation
between the `net` and `max` cargo fields. -/
def parseEdgeDemand (path : List Seg) (j : Json) : Except ValidationError EdgeDemand :=
  match pydictCoerce j with
  | none => .error [⟨path, "value is not a valid dict"⟩]
  | some o =>
      pseq (pseq (pseq (pseq (pseq (pseq (pseq (pseq (pseq (pseq (pseq (pseq (pseq (.ok EdgeDemand.mk)
        (reqField path o "startTime" "start_time" parseFloat))
        (reqField path o "endTime" "end_time" parseFloat))
        (reqField path o "origin" "origin" parseLocation))
        (reqField path o "destination" "destination" parseLocation))
        (reqField path o "location" "location" parseLocation))
        (optField path o "consumption" "consumption" [] (parseList parseResource)))
        (optField path o "production" "production" [] (parseList parseResource)))
        (reqField path o "totalMass" "total_mass" parseFloat))
        (reqField path o "totalVolume" "total_volume" parseFloat))
        (reqField path o "maxCargoMass" "max_cargo_mass" parseFloat))
        (reqField path o "netCargoMass" "net_cargo_mass" parseFloat))
        (reqField path o "maxCargoVolume" "max_cargo_volume" parseFloat))
        (reqField path o "netCargoVolume" "net_cargo_volume" parseFloat)

/-- Models `RawDemandsAnalysis.parse_raw` after `json.loads`
(`src/app/main.py` line 89): `parse_obj` requires a dict (or dict-coercible
value, failing with the pydantic whole-model root location otherwise) and
validates the single `demands` field, which defaults to `[]`. -/
def RawDemandsAnalysis.parseJson (j : Json) :
    Except ValidationError RawDemandsAnalysis :=
  match pydictCoerce j with
  | none => .error [⟨[.root], "RawDemandsAnalysis expected dict"⟩]
  | some o =>
      pseq (.ok RawDemandsAnalysis.mk)
        (optField [] o "demands" "demands" [] (parseList parseRawDemand))

/-- Models `AggregatedDemandsAnalysis.parse_raw` after `json.loads`
(`src/app/main.py` line 140): `nodes` and `edges` both default to `[]`. -/
def AggregatedDemandsAnalysis.parseJson (j : Json) :
    Except ValidationError AggregatedDemandsAnalysis :=
  match pydictCoerce j with
  | none => .error [⟨[.root], "AggregatedDemandsAnalysis expected dict"⟩]
  | some o =>
      pseq (pseq (.ok AggregatedDemandsAnalysis.mk)
        (optField [] o "nodes" "nodes" [] (parseList parseNodeDemand)))
        (optField [] o "edges" "edges" [] (parseList parseEdgeDemand))

/-! ## Canonical JSON encoding

Models the camelCase serialization of the models (pydantic `.json` /
FastAPI response encoding with the `CamelModel` alias generator): every
field is emitted under its camelCase alias in declaration order, `None`
becomes `null`, lists become arrays.  The Python JSON encoder emits `nan` and
the infinities as the same non-standard tokens `json.loads` reads back. -/

/-- Canonical encoding of `ResourceType`. -/
def ResourceType.toJson (r : ResourceType) : Json :=
  .obj [("type", .str r.type.value), ("name", .str r.name),
        ("classOfSupply", Json.int r.class_of_supply),
        ("environment", .str r.environment.value), ("units", .str r.units),
        ("unitMass", .num r.unit_mass), ("unitVolume", .num r.unit_volume),
        ("packingFactor", .num r.packing_factor)]

/-- Canonical encoding of `Location`. -/
def Location.toJson (l : Location) : Json :=
  .obj [("id", Json.int l.id), ("name", .str l.name)]

/-- Canonical encoding of `Element`. -/
def Element.toJson (e : Element) : Json :=
  .obj [("id", Json.int e.id), ("name", .str e.name)]

/-- Canonical encoding of `Resource`. -/
def Resource.toJson (r : Resource) : Json :=
  .obj [("resource", r.resource.toJson), ("amount", .num r.amount),
        ("mass", .num r.mass), ("volume", .num r.volume)]

/-- Canonical encoding of `RawDemand`. -/
def RawDemand.toJson (d : RawDemand) : Json :=
  .obj [("time", .num d.time), ("location", d.location.toJson),
        ("element", match d.element with
          | none => .null
          | some e => e.toJson),
        ("consumption", .arr (d.consumption.map Resource.toJson)),
        ("production", .arr (d.production.map Resource.toJson)),
        ("totalMass", .num d.total_mass), ("totalVolume", .num d.total_volume)]

/-- Canonical encoding of `RawDemandsAnalysis`. -/
def RawDemandsAnalysis.toJson (a : RawDemandsAnalysis) : Json :=
  .obj [("demands", .arr (a.demands.map RawDemand.toJson))]

/-! ## Python equality and NaN freedom

pydantic model equality (`==`) compares the two models field by field,
bottoming out at Python float equality, under which `nan` is unequal to
itself.  These boolean functions embed that relation for the structures a
`RawDemandsAnalysis` contains. -/

/-- Pointwise Python `==` on lists (lengths must agree). -/
def listPyEq {α : Type} (f : α → α → Bool) : List α → List α → Bool
  | [], [] => true
  | a :: as, b :: bs => f a b && listPyEq f as bs
  | _, _ => false

/-- Python `==` on `ResourceType` values. -/
def ResourceType.pyEqF (a b : ResourceType) : Bool :=
  a.type == b.type && a.name == b.name && a.class_of_supply == b.class_of_supply
    && a.environment == b.environment && a.units == b.units
    && a.unit_mass.pyEq b.unit_mass && a.unit_volume.pyEq b.unit_volume
    && a.packing_factor.pyEq b.packing_factor

/-- Python `==` on `Location` values. -/
def Location.pyEqF (a b : Location) : Bool :=
  a.id == b.id && a.name == b.name

/-- Python `==` on `Element` values. -/
def Element.pyEqF (a b : Element) : Bool :=
  a.id == b.id && a.name == b.name

/-- Python `==` on `Resource` values. -/
def Resource.pyEqF (a b : Resource) : Bool :=
  a.resource.pyEqF b.resource && a.amount.pyEq b.amount
    && a.mass.pyEq b.mass && a.volume.pyEq b.volume

/-- Python `==` on `RawDemand` values. -/
def RawDemand.pyEqF (a b : RawDemand) : Bool :=
  a.time.pyEq b.time && a.location.pyEqF b.location
    && (match a.element, b.element with
        | none, none => true
        | some x, some y => x.pyEqF y
        | _, _ => false)
    && listPyEq Resource.pyEqF a.consumption b.consumption
    && listPyEq Resource.pyEqF a.production b.production
    && a.total_mass.pyEq b.total_mass && a.total_volume.pyEq b.total_volume

/-- Python `==` on `RawDemandsAnalysis` values. -/
def RawDemandsAnalysis.pyEqF (a b : RawDemandsAnalysis) : Bool :=
  listPyEq RawDemand.pyEqF a.demands b.demands

/-- No float field of this `ResourceType` is `nan`. -/
def ResourceType.noNaN (r : ResourceType) : Bool :=
  !r.unit_mass.isNaN && !r.unit_volume.isNaN && !r.packing_factor.isNaN

/-- No float field of this `Resource` is `nan`. -/
def Resource.noNaN (r : Resource) : Bool :=
  r.resource.noNaN && !r.amount.isNaN && !r.mass.isNaN && !r.volume.isNaN

/-- No float field anywhere in this `RawDemand` is `nan`. -/
def RawDemand.noNaN (d : RawDemand) : Bool :=
  !d.time.isNaN && d.consumption.all Resource.noNaN
    && d.production.all Resource.noNaN
    && !d.total_mass.isNaN && !d.total_volume.isNaN

/-- No float field anywhere in this `RawDemandsAnalysis` is `nan`. -/
def RawDemandsAnalysis.noNaN (a : RawDemandsAnalysis) : Bool :=
  a.demands.all RawDemand.noNaN

/-! ## Construction

Python-side construction `Model(field=value, ...)` runs the same pydantic
field validators as parsing.  For well-typed arguments the `Field(...)`
declarations in `src/app/demands_analysis.py` impose nothing further: they
carry only descriptions — no `ge`/`gt`/`le` bounds and no `@validator`
functions appear anywhere in the file — so no numeric constraint exists that
could fail. -/

/-- pydantic construction of `ResourceType` (lines 26-45): type validation
only; no bound on `unit_mass`, `unit_volume` or `packing_factor`. -/
def ResourceType.construct (type : ResourceTypeType) (name : String)
    (class_of_supply : ℤ) (environment : Environment) (units : String)
    (unit_mass unit_volume packing_factor : PyFloat) :
    Except ValidationError ResourceType :=
  .ok ⟨type, name, class_of_supply, environment, units,
       unit_mass, unit_volume, packing_factor⟩

/-- pydantic construction of `Resource` (lines 66-74): no bound on
`amount`, `mass` or `volume`. -/
def Resource.construct (resource : ResourceType)
    (amount mass volume : PyFloat) : Except ValidationError Resource :=
  .ok ⟨resource, amount, mass, volume⟩

/-- pydantic construction of `RawDemand` (lines 77-102): no bound on any
numeric field. -/
def RawDemand.construct (time : PyFloat) (location : Location)
    (element : Option Element) (consumption production : List Resource)
    (total_mass total_volume : PyFloat) : Except ValidationError RawDemand :=
  .ok ⟨time, location, element, consumption, production,
       total_mass, total_volume⟩

/-- pydantic construction of `NodeDemand` (lines 115-139). -/
def NodeDemand.construct (time : PyFloat) (location : Location)
    (consumption production : List Resource)
    (total_mass total_volume : PyFloat) : Except ValidationError NodeDemand :=
  .ok ⟨time, location, consumption, production, total_mass, total_volume⟩

/-- pydantic construction of `EdgeDemand` (lines 142-187): the source
declares no relation between `start_time` and `end_time` and none between
the `net` and `max` cargo fields, so construction cannot fail on them. -/
def EdgeDemand.construct (start_time end_time : PyFloat)
    (origin destination location : Location)
    (consumption production : List Resource)
    (total_mass total_volume max_cargo_mass net_cargo_mass
     max_cargo_volume net_cargo_volume : PyFloat) :
    Except ValidationError EdgeDemand :=
  .ok ⟨start_time, end_time, origin, destination, location, consumption,
       production, total_mass, total_volume, max_cargo_mass, net_cargo_mass,
       max_cargo_volume, net_cargo_volume⟩

/-! ## Orchestrator (`src/app/main.py`)

The two endpoint handlers are embedded as functions of: the configuration
read at startup (`SPACENET_PATH`, `SPACENET_TIMEOUT`), the working
directory produced by `TemporaryDirectory()`, the upload (filename hint and
content) and the `consume_resources` flag, plus the black-box behaviour of
the engine child process.  The result records the built command line, the
staged path and content, the HTTP-level outcome, and whether the temporary
directory was removed. -/

/-- Whether the string begins with the path separator `/`. -/
def startsWithSlash (s : String) : Bool :=
  match s.data with
  | [] => false
  | c :: _ => c = '/'

/-- Whether the string ends with the path separator `/`. -/
def endsWithSlash (s : String) : Bool :=
  match s.data.getLast? with
  | some c => c = '/'
  | none => false

/-- Models `os.path.join` with POSIX semantics: an absolute second component
discards the first, otherwise the components are joined with a single
separator. -/
def pyJoin (a b : String) : String :=
  if startsWithSlash b then b
  else if a = "" ∨ endsWithSlash a then a ++ b
  else a ++ "/" ++ b

/-- Split a character list at every `/`. -/
def splitSlashAux : List Char → List Char → List (List Char)
  | [], acc => [acc.reverse]
  | c :: cs, acc =>
      if c = '/' then acc.reverse :: splitSlashAux cs []
      else splitSlashAux cs (c :: acc)

/-- One step of POSIX path normalization over components of an absolute
path: empty and `.` components vanish, `..` pops the previous component. -/
def normStep (acc : List (List Char)) (part : List Char) : List (List Char) :=
  if part = [] ∨ part = ['.'] then acc
  else if part = ['.', '.'] then acc.dropLast
  else acc ++ [part]

/-- Normalized component list of an absolute path. -/
def normParts (p : String) : List (List Char) :=
  (splitSlashAux p.data []).foldl normStep []

/-- Whether the file at absolute path `p` lies inside directory `dir`,
after path normalization. -/
def insideDir (dir p : String) : Bool :=
  (normParts dir).isPrefixOf (normParts p)

/-- Config `spacenet_timeout = os.getenv("SPACENET_TIMEOUT", 10)`
(`src/app/main.py` lines 22-23): when the environment variable is set its
value is a Python `str`; only the fallback default is the `int` 10. -/
inductive TimeoutCfg where
  | int (n : ℤ)
  | str (s : String)
  deriving DecidableEq

/-- How the timeout configuration renders inside the f-string
`f"Timeout exceeded (… s)"`. -/
def TimeoutCfg.pyStr : TimeoutCfg → String
  | .int n => toString n
  | .str s => s

/-- The startup configuration load of `src/app/main.py` line 23. -/
def spacenet_timeout (env : Option String) : TimeoutCfg :=
  match env with
  | some s => .str s
  | none => .int 10

/-- Black-box behaviour of one engine child process: how long it would run,
its exit code, its combined stdout/stderr text, and the JSON document it
leaves at the `-o` output path (if any). -/
structure EngineBehavior where
  duration : ℚ
  exitCode : ℤ
  output : String
  resultFile : Option Json

/-- Outcome of `subprocess.check_output(argv, …, timeout=cfg)`. -/
inductive SubprocessOutcome where
  | ok (output : String)
  | calledProcessError (output : String)
  | timeoutExpired
  | typeError
  deriving DecidableEq

/-- Models `subprocess.check_output(…, timeout=spacenet_timeout)` as called
at `src/app/main.py` lines 63-79 and 114-130.  In CPython,
`Popen.communicate` computes `endtime = _time() + timeout` before waiting;
when the configured timeout is a `str` (the `os.getenv` case) that addition
of `float` and `str` raises `TypeError` immediately, so neither
`TimeoutExpired` nor `CalledProcessError` can ever be reached.  With a
numeric timeout: `TimeoutExpired` once the child outlives the budget,
`CalledProcessError` on a non-zero exit, otherwise the captured output. -/
def checkOutput (cfg : TimeoutCfg) (eng : EngineBehavior) : SubprocessOutcome :=
  match cfg with
  | .str _ => .typeError
  | .int t =>
      if (t : ℚ) < eng.duration then .timeoutExpired
      else if eng.exitCode = 0 then .ok eng.output
      else .calledProcessError eng.output

/-- What one request handler produces at the HTTP boundary: a successful
response body, a raised `HTTPException` with its status code and detail, or
an exception no handler catches (FastAPI turns those into an internal
server error, a distinct class from the 422 unprocessable-input one). -/
inductive Response (α : Type) where
  | ok (value : α)
  | httpException (status : ℕ) (detail : String)
  | serverError (description : String)
  deriving DecidableEq

/-- Whether the outcome is the unprocessable-input class (HTTP 422). -/
def Response.isUnprocessable {α : Type} : Response α → Bool
  | .httpException 422 _ => true
  | _ => false

/-- Observable effects of one request: the engine command line, where and
what the handler staged, the HTTP outcome, and whether the temporary
directory was removed (`TemporaryDirectory` removes it on every exit of the
`with` block, exceptional or not). -/
structure AnalysisResult (α : Type) where
  argv : List String
  stagedPath : String
  stagedContent : String
  response : Response α
  tempdirRemoved : Bool
  deriving DecidableEq

/-- Handler `analyze_raw_demands` (`src/app/main.py` lines 42-89), transcribed
step by step: stage the upload at `os.path.join(tempdir, filename)`, build
the engine command line (note the trailing `"-c" if consume_resources else
""` element), run `subprocess.check_output` under the configured timeout,
map `CalledProcessError` and `TimeoutExpired` to `HTTPException(422, …)`,
then read `results.json` — a missing file raises `FileNotFoundError`
uncaught — and hand the text to `RawDemandsAnalysis.parse_raw`, whose
`ValidationError` is likewise uncaught. -/
def analyze_raw_demands (spacenet_path : String) (timeout_cfg : TimeoutCfg)
    (tempdir filename content : String) (consume_resources : Bool)
    (eng : EngineBehavior) : AnalysisResult RawDemandsAnalysis :=
  let scenario_path := pyJoin tempdir filename
  let results_path := pyJoin tempdir "results.json"
  let argv := ["java", "-jar", spacenet_path, "-h", "demands-raw",
               "-i", scenario_path, "-o", results_path,
               if consume_resources then "-c" else ""]
  let response : Response RawDemandsAnalysis :=
    match checkOutput timeout_cfg eng with
    | .typeError => .serverError "TypeError"
    | .timeoutExpired =>
        .httpException 422 ("Timeout exceeded (" ++ timeout_cfg.pyStr ++ " s)")
    | .calledProcessError out => .httpException 422 out
    | .ok _ =>
        match eng.resultFile with
        | none => .serverError "FileNotFoundError"
        | some results =>
            match RawDemandsAnalysis.parseJson results with
            | .ok v => .ok v
            | .error _ => .serverError "pydantic.ValidationError"
  { argv := argv, stagedPath := scenario_path, stagedContent := content,
    response := response, tempdirRemoved := true }

/-- Handler `analyze_aggregated_demands` (`src/app/main.py` lines 92-140),
transcribed the same way; the body differs from `analyze_raw_demands` only
in the mode string `demands-agg` and the result model parsed. -/
def analyze_aggregated_demands (spacenet_path : String)
    (timeout_cfg : TimeoutCfg) (tempdir filename content : String)
    (consume_resources : Bool) (eng : EngineBehavior) :
    AnalysisResult AggregatedDemandsAnalysis :=
  let scenario_path := pyJoin tempdir filename
  let results_path := pyJoin tempdir "results.json"
  let argv := ["java", "-jar", spacenet_path, "-h", "demands-agg",
               "-i", scenario_path, "-o", results_path,
               if consume_resources then "-c" else ""]
  let response : Response AggregatedDemandsAnalysis :=
    match checkOutput timeout_cfg eng with
    | .typeError => .serverError "TypeError"
    | .timeoutExpired =>
        .httpException 422 ("Timeout exceeded (" ++ timeout_cfg.pyStr ++ " s)")
    | .calledProcessError out => .httpException 422 out
    | .ok _ =>
        match eng.resultFile with
        | none => .serverError "FileNotFoundError"
        | some results =>
            match AggregatedDemandsAnalysis.parseJson results with
            | .ok v => .ok v
            | .error _ => .serverError "pydantic.ValidationError"
  { argv := argv, stagedPath := scenario_path, stagedContent := content,
    response := response, tempdirRemoved := true }

/-- The orchestration skeleton the two handlers share, written to the
description in the spec of the operations: parameterized by the mode selector
string and the parsing function of the result model, with every other step
identical.  Used to state that each handler is an instance of it. -/
def analyzeDemands {α : Type} (mode : String)
    (parse : Json → Except ValidationError α) (spacenet_path : String)
    (timeout_cfg : TimeoutCfg) (tempdir filename content : String)
    (consume_resources : Bool) (eng : EngineBehavior) : AnalysisResult α :=
  let scenario_path := pyJoin tempdir filename
  let results_path := pyJoin tempdir "results.json"
  let argv := ["java", "-jar", spacenet_path, "-h", mode,
               "-i", scenario_path, "-o", results_path,
               if consume_resources then "-c" else ""]
  let response : Response α :=
    match checkOutput timeout_cfg eng with
    | .typeError => .serverError "TypeError"
    | .timeoutExpired =>
        .httpException 422 ("Timeout exceeded (" ++ timeout_cfg.pyStr ++ " s)")
    | .calledProcessError out => .httpException 422 out
    | .ok _ =>
        match eng.resultFile with
        | none => .serverError "FileNotFoundError"
        | some results =>
            match parse results with
            | .ok v => .ok v
            | .error _ => .serverError "pydantic.ValidationError"
  { argv := argv, stagedPath := scenario_path, stagedContent := content,
    response := response, tempdirRemoved := true }

/-! ## Auxiliary definitions for the statements -/

/-- A JSON value of scalar shape: `null`, a boolean, a number or a string.
Python `dict(...)` raises `TypeError` or `ValueError` on every one of
these, so none can be coerced into the field dict of a model. -/
def Json.isScalar : Json → Bool
  | .null => true
  | .bool _ => true
  | .num _ => true
  | .str _ => true
  | _ => false

/-- Decidable equality for `Except` results, so concrete parser outcomes can
be settled by `decide`. -/
instance exceptDecEq {ε α : Type} [DecidableEq ε] [DecidableEq α] :
    DecidableEq (Except ε α) := fun x y =>
  match x, y with
  | .ok a, .ok b => if h : a = b then .isTrue (by rw [h]) else .isFalse (by simp [h])
  | .error a, .error b => if h : a = b then .isTrue (by rw [h]) else .isFalse (by simp [h])
  | .ok _, .error _ => .isFalse (by simp)
  | .error _, .ok _ => .isFalse (by simp)

/-- A `ResourceType` document whose `type` field holds the string `s` and
whose other seven fields are well-formed. -/
def rtJson (s : String) : Json :=
  .obj [("type", .str s), ("name", .str "Water"),
        ("classOfSupply", Json.int 201), ("environment", .str "Pressurized"),
        ("units", .str "kg"), ("unitMass", Json.int 1),
        ("unitVolume", Json.int 0), ("packingFactor", Json.int 0)]

/-- A full raw-demands result document, well-formed except that the resource
type holds the string `s` in its `type` field. -/
def inputWithType (s : String) : Json :=
  .obj [("demands", .arr [
    .obj [("time", Json.int 0),
          ("location", .obj [("id", Json.int 1), ("name", .str "A")]),
          ("consumption", .arr [
            .obj [("resource", rtJson s), ("amount", Json.int 1),
                  ("mass", Json.int 1), ("volume", Json.int 0)]]),
          ("totalMass", Json.int 1), ("totalVolume", Json.int 0)]])]

/-- A raw-demands result document whose single demand record carries `f` as
its `time` value — with `f := .nan` or `.inf` this is the output text a
broken engine would produce with the tokens `NaN` / `Infinity`, which
the Python `json.loads` accepts. -/
def demandWithTime (f : PyFloat) : Json :=
  .obj [("demands", .arr [
    .obj [("time", .num f),
          ("location", .obj [("id", .num (.finite 1)), ("name", .str "A")]),
          ("totalMass", .num (.finite 5)), ("totalVolume", .num (.finite 6))]])]

/-! ## Round-trip lemmas

Parsing the canonical encoding of a value recovers the value exactly, model
by model. -/

theorem parseInt_toJson (p : List Seg) (n : ℤ) : parseInt p (Json.int n) = .ok n := by
  simp [parseInt, Json.int, Rat.num_intCast, Rat.den_intCast, Int.tdiv_one]

theorem parseResourceTypeType_value (p : List Seg) (t : ResourceTypeType) :
    parseResourceTypeType p (.str t.value) = .ok t := by
  cases t <;> rfl

theorem parseEnvironment_value (p : List Seg) (e : Environment) :
    parseEnvironment p (.str e.value) = .ok e := by
  cases e <;> rfl

theorem parseLocation_toJson (p : List Seg) (l : Location) :
    parseLocation p (Location.toJson l) = .ok l := by
  simp [Location.toJson, parseLocation, pydictCoerce, reqField, getField, dictGet,
    pseq, parseStr, parseInt_toJson]

theorem parseElement_toJson (p : List Seg) (e : Element) :
    parseElement p (Element.toJson e) = .ok e := by
  simp [Element.toJson, parseElement, pydictCoerce, reqField, getField, dictGet,
    pseq, parseStr, parseInt_toJson]

theorem parseOptElement_some (p : List Seg) (e : Element) :
    parseOptElement p (Element.toJson e) = .ok (some e) := by
  have hobj : Element.toJson e
      = .obj [("id", Json.int e.id), ("name", .str e.name)] := rfl
  rw [hobj]
  show (parseElement p (.obj [("id", Json.int e.id), ("name", .str e.name)])).map some
      = .ok (some e)
  rw [← hobj, parseElement_toJson]
  rfl

theorem parseResourceType_toJson (p : List Seg) (r : ResourceType) :
    parseResourceType p (ResourceType.toJson r) = .ok r := by
  simp [ResourceType.toJson, parseResourceType, pydictCoerce, reqField, getField,
    dictGet, pseq, parseStr, parseInt_toJson, parseFloat,
    parseResourceTypeType_value, parseEnvironment_value]

theorem parseResource_toJson (p : List Seg) (r : Resource) :
    parseResource p (Resource.toJson r) = .ok r := by
  simp [Resource.toJson, parseResource, pydictCoerce, reqField, getField, dictGet,
    pseq, parseFloat, parseResourceType_toJson]

theorem parseListAux_map {α : Type} (f : List Seg → Json → Except ValidationError α)
    (g : α → Json) (hf : ∀ p a, f p (g a) = .ok a) (l : List α) :
    ∀ (p : List Seg) (i : ℕ), parseListAux f p i (l.map g) = .ok l := by
  induction l with
  | nil => intro p i; rfl
  | cons a as ih =>
      intro p i
      simp [parseListAux, hf, ih p (i + 1), pseq]

theorem parseRawDemand_toJson (p : List Seg) (d : RawDemand) :
    parseRawDemand p (RawDemand.toJson d) = .ok d := by
  have hres := parseListAux_map parseResource Resource.toJson parseResource_toJson
  cases d with
  | mk time location element consumption production tm tv =>
      cases element with
      | none =>
          simp [RawDemand.toJson, parseRawDemand, pydictCoerce, reqField, optField,
            getField, dictGet, pseq, parseFloat, parseLocation_toJson,
            parseOptElement, parseList, hres]
      | some e =>
          simp [RawDemand.toJson, parseRawDemand, pydictCoerce, reqField, optField,
            getField, dictGet, pseq, parseFloat, parseLocation_toJson,
            parseOptElement_some, parseList, hres]

theorem parseJson_toJson (a : RawDemandsAnalysis) :
    RawDemandsAnalysis.parseJson a.toJson = .ok a := by
  have hd := parseListAux_map parseRawDemand RawDemand.toJson parseRawDemand_toJson
  cases a with
  | mk demands =>
      simp [RawDemandsAnalysis.toJson, RawDemandsAnalysis.parseJson, pydictCoerce,
        optField, getField, dictGet, pseq, parseList, hd]

/-! ## Error propagation lemmas

pydantic v1 validates the fields in declaration order and accumulates their
errors in that order, so when the first validated field fails its error
heads the resulting error list whatever the other fields do. -/

theorem pseq_error_cons {α β : Type} (e : PError) (es : List PError)
    (x : Except ValidationError α) :
    ∃ es2, pseq (α := α) (β := β) (.error (e :: es)) x = .error (e :: es2) := by
  cases x with
  | ok a => exact ⟨es, rfl⟩
  | error e2 => exact ⟨es ++ e2, by simp [pseq]⟩

theorem parseRawDemand_missing_time (p : List Seg) (o : List (String × Json))
    (h : getField o "time" "time" = none) :
    ∃ rest, parseRawDemand p (.obj o)
      = .error (⟨p ++ [.key "time"], "field required"⟩ :: rest) := by
  have ht : pseq (.ok RawDemand.mk) (reqField p o "time" "time" parseFloat)
      = .error [⟨p ++ [.key "time"], "field required"⟩] := by
    simp [reqField, h, pseq]
  obtain ⟨r1, h1⟩ := pseq_error_cons ⟨p ++ [.key "time"], "field required"⟩ []
    (reqField p o "location" "location" parseLocation)
  obtain ⟨r2, h2⟩ := pseq_error_cons ⟨p ++ [.key "time"], "field required"⟩ r1
    (optField p o "element" "element" none parseOptElement)
  obtain ⟨r3, h3⟩ := pseq_error_cons ⟨p ++ [.key "time"], "field required"⟩ r2
    (optField p o "consumption" "consumption" [] (parseList parseResource))
  obtain ⟨r4, h4⟩ := pseq_error_cons ⟨p ++ [.key "time"], "field required"⟩ r3
    (optField p o "production" "production" [] (parseList parseResource))
  obtain ⟨r5, h5⟩ := pseq_error_cons ⟨p ++ [.key "time"], "field required"⟩ r4
    (reqField p o "totalMass" "total_mass" parseFloat)
  obtain ⟨r6, h6⟩ := pseq_error_cons ⟨p ++ [.key "time"], "field required"⟩ r5
    (reqField p o "totalVolume" "total_volume" parseFloat)
  refine ⟨r6, ?_⟩
  show pseq (pseq (pseq (pseq (pseq (pseq (pseq (.ok RawDemand.mk)
      (reqField p o "time" "time" parseFloat))
      (reqField p o "location" "location" parseLocation))
      (optField p o "element" "element" none parseOptElement))
      (optField p o "consumption" "consumption" [] (parseList parseResource)))
      (optField p o "production" "production" [] (parseList parseResource)))
      (reqField p o "totalMass" "total_mass" parseFloat))
      (reqField p o "totalVolume" "total_volume" parseFloat)
    = .error (⟨p ++ [.key "time"], "field required"⟩ :: r6)
  rw [ht, h1, h2, h3, h4, h5, h6]

/-! ## Python equality is reflexive exactly in the absence of NaN -/

theorem PyFloat.pyEq_self (f : PyFloat) (h : f.isNaN = false) : f.pyEq f = true := by
  cases f <;> simp_all [PyFloat.pyEq, PyFloat.isNaN]

theorem listPyEq_self {α : Type} (f : α → α → Bool) (l : List α)
    (h : ∀ a ∈ l, f a a = true) : listPyEq f l l = true := by
  induction l with
  | nil => rfl
  | cons a as ih =>
      simp [listPyEq, h a (by simp), ih (fun b hb => h b (by simp [hb]))]

theorem resourceType_pyEq_refl (r : ResourceType) (h : r.noNaN = true) :
    r.pyEqF r = true := by
  simp [ResourceType.noNaN] at h
  obtain ⟨⟨h1, h2⟩, h3⟩ := h
  simp [ResourceType.pyEqF, PyFloat.pyEq_self, h1, h2, h3]

theorem resource_pyEq_refl (r : Resource) (h : r.noNaN = true) :
    r.pyEqF r = true := by
  simp [Resource.noNaN] at h
  obtain ⟨⟨⟨h1, h2⟩, h3⟩, h4⟩ := h
  simp [Resource.pyEqF, PyFloat.pyEq_self, resourceType_pyEq_refl, h1, h2, h3, h4]

theorem rawDemand_pyEq_refl (d : RawDemand) (h : d.noNaN = true) :
    d.pyEqF d = true := by
  cases d with
  | mk time location element consumption production tm tv =>
      simp [RawDemand.noNaN] at h
      obtain ⟨⟨⟨⟨h1, h2⟩, h3⟩, h4⟩, h5⟩ := h
      have hc : listPyEq Resource.pyEqF consumption consumption = true :=
        listPyEq_self _ _ (fun r hr => resource_pyEq_refl r (h2 r hr))
      have hp : listPyEq Resource.pyEqF production production = true :=
        listPyEq_self _ _ (fun r hr => resource_pyEq_refl r (h3 r hr))
      cases element with
      | none =>
          simp [RawDemand.pyEqF, PyFloat.pyEq_self, Location.pyEqF, h1, h4, h5, hc, hp]
      | some e =>
          simp [RawDemand.pyEqF, PyFloat.pyEq_self, Location.pyEqF, Element.pyEqF,
            h1, h4, h5, hc, hp]

theorem rawDemandsAnalysis_pyEq_refl (a : RawDemandsAnalysis)
    (h : a.noNaN = true) : a.pyEqF a = true := by
  simp [RawDemandsAnalysis.noNaN] at h
  exact listPyEq_self _ _ (fun d hd => rawDemand_pyEq_refl d (h d hd))

/-! ## Claim theorems -/

/-- C1 counterexample: construction does not reject physically impossible
fields.  An `EdgeDemand` with `end_time < start_time` and with net cargo
mass/volume exceeding the max constructs successfully (so the claimed
post-construction inequality fails on it), a `ResourceType` with negative
unit mass and volume constructs successfully, and a `Resource` with negative
amount, mass and volume constructs successfully — the claim says all of
these fail with a `ValidationError`. -/
theorem c1_counterexample :
    EdgeDemand.construct (.finite 5) (.finite 1) ⟨1, "O"⟩ ⟨2, "D"⟩ ⟨3, "E"⟩ [] []
        (.finite 0) (.finite 0) (.finite 1) (.finite 9) (.finite 1) (.finite 9)
      = .ok ⟨.finite 5, .finite 1, ⟨1, "O"⟩, ⟨2, "D"⟩, ⟨3, "E"⟩, [], [],
             .finite 0, .finite 0, .finite 1, .finite 9, .finite 1, .finite 9⟩ ∧
    PyFloat.pyLe (.finite 9) (.finite 1) = false ∧
    PyFloat.pyLe (.finite 1) (.finite 5) = true ∧
    ResourceType.construct .generic "Water" 201 .pressurized "kg"
        (.finite (-1)) (.finite (-2)) (.finite 0)
      = .ok ⟨.generic, "Water", 201, .pressurized, "kg",
             .finite (-1), .finite (-2), .finite 0⟩ ∧
    Resource.construct ⟨.generic, "Water", 201, .pressurized, "kg",
        .finite 1, .finite 1, .finite 0⟩ (.finite (-3)) (.finite (-1)) (.finite (-1))
      = .ok ⟨⟨.generic, "Water", 201, .pressurized, "kg",
             .finite 1, .finite 1, .finite 0⟩, .finite (-3), .finite (-1), .finite (-1)⟩ := by
  exact ⟨rfl, by decide, by decide, rfl, rfl⟩

/-- C1 (amended): construction of the domain entities performs only type
validation — the `Field(...)` declarations carry no numeric bounds and the
module defines no validators — so every well-typed construction succeeds,
including ones with negative mass/volume/amount, with
`end_time < start_time`, and with net cargo exceeding max cargo; no
post-construction inequality between `net_cargo` and `max_cargo` is
guaranteed. -/
theorem c1_construction_unvalidated
    (t : ResourceTypeType) (nm : String) (cos : ℤ) (env : Environment)
    (u : String) (um uv pf : PyFloat) (rt : ResourceType) (am ms vol : PyFloat)
    (tme : PyFloat) (loc o dst : Location) (el : Option Element)
    (cons prod : List Resource) (tm tv st et mcm ncm mcv ncv : PyFloat) :
    ResourceType.construct t nm cos env u um uv pf
        = .ok ⟨t, nm, cos, env, u, um, uv, pf⟩ ∧
    Resource.construct rt am ms vol = .ok ⟨rt, am, ms, vol⟩ ∧
    RawDemand.construct tme loc el cons prod tm tv
        = .ok ⟨tme, loc, el, cons, prod, tm, tv⟩ ∧
    NodeDemand.construct tme loc cons prod tm tv
        = .ok ⟨tme, loc, cons, prod, tm, tv⟩ ∧
    EdgeDemand.construct st et o dst loc cons prod tm tv mcm ncm mcv ncv
        = .ok ⟨st, et, o, dst, loc, cons, prod, tm, tv, mcm, ncm, mcv, ncv⟩ :=
  ⟨rfl, rfl, rfl, rfl, rfl⟩

/-- C2 counterexample: decoding is not strict for every unknown top-level
shape.  A top-level empty JSON string — a scalar, not the documented object
shape — parses successfully into both result models with all defaults,
because the pydantic v1 `dict(...)` fallback turns `""` into the empty
dict; no error naming any path is produced. -/
theorem c2_counterexample :
    RawDemandsAnalysis.parseJson (Json.str "") = .ok ⟨[]⟩ ∧
    AggregatedDemandsAnalysis.parseJson (Json.str "") = .ok ⟨[], []⟩ ∧
    Json.isScalar (Json.str "") = true :=
  ⟨rfl, rfl, rfl⟩

/-- C2 (amended): decoding is strict except for the one pydantic leniency
above.  Every scalar top-level value other than the empty string fails with
the whole-model root location for both result models; every demand record
that omits the required `time` field fails with `field required` heading
the error list at path `demands → 0 → time`; and every `type` value outside
`Generic`/`Continuous`/`Discrete` fails with the enumeration error whose
location ends at the `type` field. -/
theorem c2_strict_decoding :
    (∀ j : Json, j.isScalar = true → j ≠ .str "" →
      RawDemandsAnalysis.parseJson j
          = .error [⟨[.root], "RawDemandsAnalysis expected dict"⟩] ∧
      AggregatedDemandsAnalysis.parseJson j
          = .error [⟨[.root], "AggregatedDemandsAnalysis expected dict"⟩]) ∧
    (∀ o : List (String × Json), getField o "time" "time" = none →
      ∃ rest, RawDemandsAnalysis.parseJson (.obj [("demands", .arr [.obj o])])
          = .error (⟨[.key "demands", .idx 0, .key "time"], "field required"⟩
                    :: rest)) ∧
    (∀ s : String, s ≠ "Generic" → s ≠ "Continuous" → s ≠ "Discrete" →
      RawDemandsAnalysis.parseJson (inputWithType s)
          = .error [⟨[.key "demands", .idx 0, .key "consumption", .idx 0,
                      .key "resource", .key "type"],
                    "value is not a valid enumeration member"⟩]) := by
  refine ⟨?_, ?_, ?_⟩
  · intro j hj hne
    cases j with
    | null => exact ⟨rfl, rfl⟩
    | bool b => exact ⟨rfl, rfl⟩
    | num f => exact ⟨rfl, rfl⟩
    | str s =>
        have hs : ¬ (s = "") := fun h => hne (by rw [h])
        constructor <;>
          simp [RawDemandsAnalysis.parseJson, AggregatedDemandsAnalysis.parseJson,
            pydictCoerce, hs]
    | arr l => simp [Json.isScalar] at hj
    | obj o => simp [Json.isScalar] at hj
  · intro o h
    obtain ⟨rest, hr⟩ :=
      parseRawDemand_missing_time [.key "demands", .idx 0] o h
    refine ⟨rest, ?_⟩
    simp [RawDemandsAnalysis.parseJson, pydictCoerce, optField, getField,
      dictGet, parseList, parseListAux, pseq, hr]
  · intro s h1 h2 h3
    simp [inputWithType, rtJson, RawDemandsAnalysis.parseJson, pydictCoerce,
      optField, getField, dictGet, reqField, parseList, parseListAux,
      parseRawDemand, parseResource, parseResourceType, parseLocation,
      parseResourceTypeType, parseEnvironment, parseOptElement, parseFloat,
      parseInt, parseStr, pseq, Json.int, h1, h2, h3]

/-- C2 witness: the amended theorem at concrete inputs — a top-level number,
a demand record carrying only a location (so `time` is absent), and the
unknown `ResourceTypeType` value `Liquid` of the spec scenario, which fails
naming the `type` field. -/
theorem c2_strict_decoding_witness :
    RawDemandsAnalysis.parseJson (Json.num .nan)
        = .error [⟨[.root], "RawDemandsAnalysis expected dict"⟩] ∧
    (∃ rest, RawDemandsAnalysis.parseJson (.obj [("demands", .arr [.obj
        [("location", .obj [("id", Json.int 1), ("name", .str "A")])]])])
        = .error (⟨[.key "demands", .idx 0, .key "time"], "field required"⟩
                  :: rest)) ∧
    RawDemandsAnalysis.parseJson (inputWithType "Liquid")
        = .error [⟨[.key "demands", .idx 0, .key "consumption", .idx 0,
                    .key "resource", .key "type"],
                  "value is not a valid enumeration member"⟩] :=
  ⟨(c2_strict_decoding.1 (Json.num .nan) rfl (by simp)).1,
   c2_strict_decoding.2.1
     [("location", .obj [("id", Json.int 1), ("name", .str "A")])] rfl,
   c2_strict_decoding.2.2 "Liquid" (by decide) (by decide) (by decide)⟩

/-- C3: the code contributes a trailing empty-string argument when
`consume_resources` is false — the claim says no argument at all is
contributed in that case.  Both handlers exhibit it. -/
theorem c3_empty_flag_argument :
    (analyze_raw_demands "/opt/spacenet.jar" (.int 10) "/tmp/work" "scenario.json"
        "scenario content" false ⟨1, 0, "", some (Json.obj [])⟩).argv
      = ["java", "-jar", "/opt/spacenet.jar", "-h", "demands-raw", "-i",
         "/tmp/work/scenario.json", "-o", "/tmp/work/results.json", ""] ∧
    (analyze_aggregated_demands "/opt/spacenet.jar" (.int 10) "/tmp/work"
        "scenario.json" "scenario content" false ⟨1, 0, "", some (Json.obj [])⟩).argv
      = ["java", "-jar", "/opt/spacenet.jar", "-h", "demands-agg", "-i",
         "/tmp/work/scenario.json", "-o", "/tmp/work/results.json", ""] :=
  ⟨rfl, rfl⟩

/-- C4: the filename hint is joined into the staging path unsanitized:
a `../` hint stages outside the working area after normalization, and an
absolute hint discards the working area entirely — the claim says every
staged path lies inside the working area of the request. -/
theorem c4_staging_escapes_tempdir :
    (analyze_raw_demands "/opt/spacenet.jar" (.int 10) "/tmp/work" "../evil.json"
        "scenario content" false ⟨1, 0, "", none⟩).stagedPath
      = "/tmp/work/../evil.json" ∧
    insideDir "/tmp/work" "/tmp/work/../evil.json" = false ∧
    (analyze_raw_demands "/opt/spacenet.jar" (.int 10) "/tmp/work" "/etc/passwd"
        "scenario content" false ⟨1, 0, "", none⟩).stagedPath = "/etc/passwd" :=
  ⟨rfl, by decide, rfl⟩

/-- C5 counterexample: with the engine exiting zero but writing no output
file, the handler hits an uncaught `FileNotFoundError` while reading
`results.json` — surfaced as a server-side error, not as the 422
unprocessable-input class the claim requires. -/
theorem c5_counterexample :
    (analyze_raw_demands "/opt/spacenet.jar" (.int 10) "/tmp/work" "scenario.json"
        "scenario content" false ⟨1, 0, "", none⟩).response
      = Response.serverError "FileNotFoundError" ∧
    (analyze_raw_demands "/opt/spacenet.jar" (.int 10) "/tmp/work" "scenario.json"
        "scenario content" false ⟨1, 0, "", none⟩).response.isUnprocessable
      = false :=
  ⟨rfl, rfl⟩

/-- C5 (amended): for every engine invocation that exits zero within a
numeric timeout budget but leaves no output file, the handler fails with the
uncaught `FileNotFoundError` from the result read — an unexpected
server-side failure, never the unprocessable-input class. -/
theorem c5_missing_output_server_error (sp : String) (t : ℤ)
    (dir fn content : String) (c : Bool) (eng : EngineBehavior)
    (hdur : eng.duration ≤ (t : ℚ)) (hexit : eng.exitCode = 0)
    (hfile : eng.resultFile = none) :
    (analyze_raw_demands sp (.int t) dir fn content c eng).response
        = Response.serverError "FileNotFoundError" ∧
    (analyze_raw_demands sp (.int t) dir fn content c eng).response.isUnprocessable
        = false := by
  have hnl : ¬ ((t : ℚ) < eng.duration) := not_lt.mpr hdur
  constructor <;>
    simp [analyze_raw_demands, checkOutput, hnl, hexit, hfile,
      Response.isUnprocessable]

/-- C5 witness: a concrete engine behaviour exercising the amended claim. -/
theorem c5_missing_output_server_error_witness :
    (analyze_raw_demands "/opt/spacenet.jar" (.int 10) "/tmp/work" "scenario.json"
        "scenario content" false ⟨1, 0, "", none⟩).response
        = Response.serverError "FileNotFoundError" ∧
    (analyze_raw_demands "/opt/spacenet.jar" (.int 10) "/tmp/work" "scenario.json"
        "scenario content" false ⟨1, 0, "", none⟩).response.isUnprocessable
        = false :=
  c5_missing_output_server_error "/opt/spacenet.jar" 10 "/tmp/work" "scenario.json"
    "scenario content" false ⟨1, 0, "", none⟩ (by norm_num) rfl rfl

/-- C6 counterexample: a result document carrying `Infinity` mass and `NaN`
volume parses successfully into a `Resource` carrying the non-finite values,
and a raw-demands document with `NaN` time parses successfully — the claim
says parsing fails on any non-finite numeric field. -/
theorem c6_counterexample :
    parseResource [] (.obj [("resource", rtJson "Generic"), ("amount", Json.int 1),
        ("mass", .num .inf), ("volume", .num .nan)])
      = .ok ⟨⟨.generic, "Water", 201, .pressurized, "kg",
             .finite 1, .finite 0, .finite 0⟩, .finite 1, .inf, .nan⟩ ∧
    RawDemandsAnalysis.parseJson (demandWithTime .nan)
      = .ok ⟨[⟨.nan, ⟨1, "A"⟩, none, [], [], .finite 5, .finite 6⟩]⟩ := by
  exact ⟨by decide, by decide⟩

/-- C6 (amended): the parser imposes no finiteness check — every `PyFloat`,
non-finite values included, passes float-field validation unchanged and is
carried into the resulting domain object. -/
theorem c6_nonfinite_accepted (p : List Seg) (f : PyFloat) :
    parseFloat p (.num f) = .ok f ∧
    RawDemandsAnalysis.parseJson (demandWithTime f)
        = .ok ⟨[⟨f, ⟨1, "A"⟩, none, [], [], .finite 5, .finite 6⟩]⟩ := by
  refine ⟨rfl, ?_⟩
  simp [demandWithTime, RawDemandsAnalysis.parseJson, pydictCoerce, optField,
    getField, dictGet, reqField, parseList, parseListAux, parseRawDemand,
    parseLocation, parseOptElement, parseFloat, parseInt, parseStr, pseq,
    Rat.num_one, Rat.den_one, Int.tdiv_one]

/-- C7: with the timeout configured through the environment (the only way
to configure 2 seconds — `os.getenv` returns a `str`), the `subprocess`
`float + str` endtime arithmetic raises `TypeError` before any timeout can
fire, so a long-running engine produces a server-side error whose detail is
not the claimed `Timeout exceeded (2 s)` message; only the unconfigured
`int 10` default can produce the timeout message.  The working directory is
removed in both situations. -/
theorem c7_string_timeout_typeerror :
    (analyze_raw_demands "/opt/spacenet.jar" (spacenet_timeout (some "2"))
        "/tmp/work" "scenario.json" "scenario content" false
        ⟨5, 0, "", none⟩).response = Response.serverError "TypeError" ∧
    (analyze_raw_demands "/opt/spacenet.jar" (spacenet_timeout (some "2"))
        "/tmp/work" "scenario.json" "scenario content" false
        ⟨5, 0, "", none⟩).response.isUnprocessable = false ∧
    (analyze_raw_demands "/opt/spacenet.jar" (spacenet_timeout (some "2"))
        "/tmp/work" "scenario.json" "scenario content" false
        ⟨5, 0, "", none⟩).tempdirRemoved = true ∧
    (analyze_raw_demands "/opt/spacenet.jar" (spacenet_timeout none)
        "/tmp/work" "scenario.json" "scenario content" false
        ⟨15, 0, "", none⟩).response
      = Response.httpException 422 "Timeout exceeded (10 s)" :=
  ⟨rfl, rfl, rfl, by decide⟩

/-- C8 counterexample: a `RawDemandsAnalysis` whose demand time is `NaN`
round-trips structurally — parsing its encoding yields exactly the same
value — yet the parsed copy is not equal to the original under Python `==`
(comparing the two distinct objects field by field bottoms out at
`nan == nan`, which is false), so the round trip does not yield an *equal*
object as the claim states. -/
theorem c8_counterexample :
    RawDemandsAnalysis.parseJson
        (RawDemandsAnalysis.toJson ⟨[⟨.nan, ⟨1, "A"⟩, none, [], [],
            .finite 0, .finite 0⟩]⟩)
      = .ok ⟨[⟨.nan, ⟨1, "A"⟩, none, [], [], .finite 0, .finite 0⟩]⟩ ∧
    RawDemandsAnalysis.pyEqF
        ⟨[⟨.nan, ⟨1, "A"⟩, none, [], [], .finite 0, .finite 0⟩]⟩
        ⟨[⟨.nan, ⟨1, "A"⟩, none, [], [], .finite 0, .finite 0⟩]⟩ = false := by
  exact ⟨by decide, by decide⟩

/-- C8 (amended): for every constructed `RawDemandsAnalysis` none of whose
float fields is `NaN`, serializing to the canonical camelCase JSON shape and
parsing back yields exactly the original value, and that value is equal to
the original under Python `==`. -/
theorem c8_roundtrip (a : RawDemandsAnalysis) (h : a.noNaN = true) :
    RawDemandsAnalysis.parseJson a.toJson = .ok a ∧ a.pyEqF a = true :=
  ⟨parseJson_toJson a, rawDemandsAnalysis_pyEq_refl a h⟩

/-- C8 witness: a concrete NaN-free analysis round-trips to an equal
object. -/
theorem c8_roundtrip_witness :
    RawDemandsAnalysis.parseJson
        (RawDemandsAnalysis.toJson ⟨[⟨.finite 2, ⟨1, "A"⟩, some ⟨3, "E"⟩,
            [⟨⟨.generic, "Water", 201, .pressurized, "kg", .finite 1,
               .finite 0, .finite 0⟩, .finite 1, .finite 1, .finite 0⟩], [],
            .finite 1, .finite 0⟩]⟩)
      = .ok ⟨[⟨.finite 2, ⟨1, "A"⟩, some ⟨3, "E"⟩,
            [⟨⟨.generic, "Water", 201, .pressurized, "kg", .finite 1,
               .finite 0, .finite 0⟩, .finite 1, .finite 1, .finite 0⟩], [],
            .finite 1, .finite 0⟩]⟩ ∧
    RawDemandsAnalysis.pyEqF
        ⟨[⟨.finite 2, ⟨1, "A"⟩, some ⟨3, "E"⟩,
            [⟨⟨.generic, "Water", 201, .pressurized, "kg", .finite 1,
               .finite 0, .finite 0⟩, .finite 1, .finite 1, .finite 0⟩], [],
            .finite 1, .finite 0⟩]⟩
        ⟨[⟨.finite 2, ⟨1, "A"⟩, some ⟨3, "E"⟩,
            [⟨⟨.generic, "Water", 201, .pressurized, "kg", .finite 1,
               .finite 0, .finite 0⟩, .finite 1, .finite 1, .finite 0⟩], [],
            .finite 1, .finite 0⟩]⟩ = true :=
  c8_roundtrip ⟨[⟨.finite 2, ⟨1, "A"⟩, some ⟨3, "E"⟩,
            [⟨⟨.generic, "Water", 201, .pressurized, "kg", .finite 1,
               .finite 0, .finite 0⟩, .finite 1, .finite 1, .finite 0⟩], [],
            .finite 1, .finite 0⟩]⟩ (by decide)

/-- C9: the list-valued fields are optional with empty defaults and
`element` is optional with no default element: `{}` parses to an analysis
with no demands (and to an aggregated analysis with no nodes and no edges),
and a demand record lacking `element`, `consumption` and `production`
parses with no element and empty lists. -/
theorem c9_parser_defaults :
    RawDemandsAnalysis.parseJson (Json.obj []) = .ok ⟨[]⟩ ∧
    AggregatedDemandsAnalysis.parseJson (Json.obj []) = .ok ⟨[], []⟩ ∧
    parseRawDemand [] (.obj [("time", .num (.finite 0)),
        ("location", .obj [("id", .num (.finite 1)), ("name", .str "N")]),
        ("totalMass", .num (.finite 2)), ("totalVolume", .num (.finite 3))])
      = .ok ⟨.finite 0, ⟨1, "N"⟩, none, [], [], .finite 2, .finite 3⟩ := by
  exact ⟨rfl, rfl, by decide⟩

/-- C10: each handler is exactly the shared orchestration skeleton
instantiated with its mode selector string and the parser of its result model —
for every configuration, upload, flag and engine behaviour the two handlers
produce identical staging, command line, outcome classification and result
reading. -/
theorem c10_handlers_share_skeleton (sp : String) (cfg : TimeoutCfg)
    (dir fn content : String) (c : Bool) (eng : EngineBehavior) :
    analyze_raw_demands sp cfg dir fn content c eng
        = analyzeDemands "demands-raw" RawDemandsAnalysis.parseJson
            sp cfg dir fn content c eng ∧
    analyze_aggregated_demands sp cfg dir fn content c eng
        = analyzeDemands "demands-agg" AggregatedDemandsAnalysis.parseJson
            sp cfg dir fn content c eng := by
  constructor
  · simp only [analyze_raw_demands, analyzeDemands]
    cases checkOutput cfg eng with
    | typeError => rfl
    | timeoutExpired => rfl
    | calledProcessError out => rfl
    | ok out =>
        cases eng.resultFile with
        | none => rfl
        | some results =>
            dsimp only
            cases RawDemandsAnalysis.parseJson results <;> rfl
  · simp only [analyze_aggregated_demands, analyzeDemands]
    cases checkOutput cfg eng with
    | typeError => rfl
    | timeoutExpired => rfl
    | calledProcessError out => rfl
    | ok out =>
        cases eng.resultFile with
        | none => rfl
        | some results =>
            dsimp only
            cases AggregatedDemandsAnalysis.parseJson results <;> rfl

end SpacenetWrapper
